import Mathlib

/-!
Verification of the AI dependency-management worker service
(`python-service/src`): a shallow embedding of the queue consumer
(`queue_consumer.py`), the AI analyzer (`ai_service.py`) and the MongoDB
result sink (`database.py`), with theorems settling the specified
acknowledgment, retry, analysis and persistence contracts.
-/

namespace DepMgmt

/-! ## JSON values and Python dictionary semantics

Message bodies, remote-model responses and analysis results are Python
values produced by `json.loads` / dict literals.  We model them with a
single inductive of JSON-like values; Python `None` is `.null`.
-/

inductive JValue where
  | null : JValue
  | bool : Bool → JValue
  | num : Int → JValue
  | str : String → JValue
  | arr : List JValue → JValue
  | obj : List (String × JValue) → JValue
deriving Repr

mutual

def JValue.beq : JValue → JValue → Bool
  | .null, .null => true
  | .bool a, .bool b => a == b
  | .num a, .num b => a == b
  | .str a, .str b => a == b
  | .arr a, .arr b => JValue.beqList a b
  | .obj a, .obj b => JValue.beqFields a b
  | _, _ => false

def JValue.beqList : List JValue → List JValue → Bool
  | [], [] => true
  | a :: as, b :: bs => JValue.beq a b && JValue.beqList as bs
  | _, _ => false

def JValue.beqFields : List (String × JValue) → List (String × JValue) → Bool
  | [], [] => true
  | (ka, va) :: as, (kb, vb) :: bs => ka == kb && JValue.beq va vb && JValue.beqFields as bs
  | _, _ => false

end

instance : BEq JValue := ⟨JValue.beq⟩

/-- Python dict lookup `d[k]` / `d.get(k)` on an association list
(first matching key; `json.loads` never produces duplicate keys). -/
def dictGet (d : List (String × JValue)) (k : String) : Option JValue :=
  (d.find? (fun kv => kv.1 == k)).map (fun kv => kv.2)

/-- Python dict assignment `d[k] = v`: updates the existing key in place
(preserving insertion order) or appends a fresh key. -/
def dictSet (d : List (String × JValue)) (k : String) (v : JValue) : List (String × JValue) :=
  if d.any (fun kv => kv.1 == k) then
    d.map (fun kv => if kv.1 == k then (k, v) else kv)
  else
    d ++ [(k, v)]

/-- Keys of a Python dict, in insertion order. -/
def dictKeys (d : List (String × JValue)) : List String :=
  d.map (fun kv => kv.1)

/-- Python truthiness of a value (`if x:`): `None`, `False`, `0`, `""`,
`[]` and `{}` are falsy, everything else truthy. -/
def pyTruthy : JValue → Bool
  | .null => false
  | .bool b => b
  | .num n => n != 0
  | .str s => s != ""
  | .arr xs => !xs.isEmpty
  | .obj fs => !fs.isEmpty

/-- Truthiness of a `d.get(k)` result (missing key gives `None`, falsy). -/
def pyTruthyOpt : Option JValue → Bool
  | none => false
  | some v => pyTruthy v

/-- Python `x is not None` on a `d.get(k)` result. -/
def pyIsNotNone : Option JValue → Bool
  | none => false
  | some v => !(v == JValue.null)

/-- Python string equality of a JSON value against a string literal
(only a `str` can equal a `str`). -/
def pyEqStr (v : JValue) (s : String) : Bool :=
  match v with
  | .str t => t == s
  | _ => false

/-- Contiguous-sublist test on character lists. -/
def charsInfix (needle : List Char) : List Char → Bool
  | [] => needle.isEmpty
  | c :: rest => needle.isPrefixOf (c :: rest) || charsInfix needle rest

/-- Substring test, modelling Python `needle in haystack` on strings. -/
def strContainsSub (hay needle : String) : Bool :=
  charsInfix needle.toList hay.toList

/-- Python membership `key in x` for `json.loads` results: key lookup on a
dict, element equality on a list, substring on a string; a `TypeError`
(modelled as `.error ()`) on numbers, booleans and `None`. -/
def pyIn (key : String) : JValue → Except Unit Bool
  | .obj fs => .ok (fs.any (fun kv => kv.1 == key))
  | .arr xs => .ok (xs.any (fun v => pyEqStr v key))
  | .str s => .ok (strContainsSub s key)
  | .num _ => .error ()
  | .bool _ => .error ()
  | .null => .error ()

/-- `all(field in x for field in fields)` with Python short-circuit:
the first membership test that raises `TypeError` aborts the whole check. -/
def pyInAll (v : JValue) : List String → Except Unit Bool
  | [] => .ok true
  | k :: ks =>
    match pyIn k v with
    | .error e => .error e
    | .ok false => .ok false
    | .ok true => pyInAll v ks

/-! ## `ai_service.py` — `AIVulnerabilityAnalyzer._call_openai_with_retry`

The remote `client.chat.completions.create` call is external; each attempt's
behaviour is an oracle `Nat → RemoteOutcome` indexed by the 0-based attempt
number.  A successful call carries the response's list of choices, each
choice's `message.content` being an optional string.
-/

/-- Outcome of one `client.chat.completions.create` call. -/
inductive RemoteOutcome where
  | success : List (Option String) → RemoteOutcome
  | openAIError : RemoteOutcome
  | otherError : RemoteOutcome
deriving DecidableEq, Repr

/-- How `_call_openai_with_retry` terminates: a returned value (the
content of the first choice, or `None` when all attempts are exhausted
without choices), or an exception propagating to the caller. -/
inductive RetryOutcome where
  | returns : Option String → RetryOutcome
  | raisesOpenAIError : RetryOutcome
  | raisesOther : RetryOutcome
deriving DecidableEq, Repr

/-- Observable trace of `_call_openai_with_retry`: final outcome, number of
attempts actually made, and the `time.sleep` durations in order. -/
structure RetryTrace where
  outcome : RetryOutcome
  attemptsMade : Nat
  sleeps : List Nat
deriving DecidableEq, Repr

/-- The body of `for attempt in range(self.max_retries)` in
`_call_openai_with_retry` (ai_service.py lines 194-228), iterating over
the list of remaining attempt indices.  A response with choices returns
its first choice's content; an empty-choices response logs and falls
through to the next attempt; `OpenAIError` sleeps
`retry_delay * (attempt + 1)` and retries unless
`attempt < max_retries - 1` fails (the last attempt), in which case it
re-raises; any other exception re-raises immediately; falling off the
loop returns `None`. -/
def retryLoop (env : Nat → RemoteOutcome) (maxRetries retryDelay : Nat) :
    List Nat → RetryTrace
  | [] => ⟨.returns none, 0, []⟩
  | attempt :: rest =>
    match env attempt with
    | .success choices =>
      match choices with
      | c :: _ => ⟨.returns c, 1, []⟩
      | [] =>
        let t := retryLoop env maxRetries retryDelay rest
        ⟨t.outcome, t.attemptsMade + 1, t.sleeps⟩
    | .openAIError =>
      if attempt < maxRetries - 1 then
        let t := retryLoop env maxRetries retryDelay rest
        ⟨t.outcome, t.attemptsMade + 1, retryDelay * (attempt + 1) :: t.sleeps⟩
      else
        ⟨.raisesOpenAIError, 1, []⟩
    | .otherError => ⟨.raisesOther, 1, []⟩

/-- `AIVulnerabilityAnalyzer._call_openai_with_retry` (ai_service.py
lines 177-228): the loop runs over `range(self.max_retries)`. -/
def callOpenAIWithRetry (env : Nat → RemoteOutcome) (maxRetries retryDelay : Nat) :
    RetryTrace :=
  retryLoop env maxRetries retryDelay (List.range maxRetries)

/-! ## `ai_service.py` — the two sub-operations and `analyze_vulnerability` -/

/-- `AIVulnerabilityAnalyzer.generate_description` (ai_service.py lines
38-69): one retried round trip; a truthy (non-empty) response is returned
stripped, an empty or missing response gives `None`, and any exception
escaping the retry wrapper is caught by the surrounding
`except Exception` and converted to `None`. -/
def generate_description (maxRetries retryDelay : Nat)
    (env : Nat → RemoteOutcome) : Option String :=
  match (callOpenAIWithRetry env maxRetries retryDelay).outcome with
  | .raisesOpenAIError => none
  | .raisesOther => none
  | .returns none => none
  | .returns (some s) => if s == "" then none else some s.trim

/-- `AIVulnerabilityAnalyzer.analyze_severity` (ai_service.py lines
71-120): one retried round trip; the response text is parsed as JSON
(`parse` stands for `json.loads`; parse failure is the
`json.JSONDecodeError` handler), then validated with
`all(field in severity_data for field in ['severity','confidence','factors'])`;
a membership `TypeError` on a non-container value escapes to the outer
`except Exception`.  Every failure path returns `None`; validation
success returns the parsed structure unchanged. -/
def analyze_severity (maxRetries retryDelay : Nat)
    (env : Nat → RemoteOutcome) (parse : String → Except Unit JValue) :
    Option JValue :=
  match (callOpenAIWithRetry env maxRetries retryDelay).outcome with
  | .raisesOpenAIError => none
  | .raisesOther => none
  | .returns none => none
  | .returns (some s) =>
    if s == "" then none
    else
      match parse s with
      | .error _ => none
      | .ok severity_data =>
        match pyInAll severity_data ["severity", "confidence", "factors"] with
        | .error _ => none
        | .ok false => none
        | .ok true => some severity_data

/-- Truthiness of the `description` local in `analyze_vulnerability`
(`if description:` / `if description or severity_analysis:`). -/
def descTruthy : Option String → Bool
  | none => false
  | some s => s != ""

/-- The fixed key set of the `result` dict literal in
`analyze_vulnerability` (ai_service.py lines 137-147). -/
def aiResultKeys : List String :=
  ["success", "vulnerabilityId", "packageName", "aiGeneratedDescription",
   "aiDeterminedSeverity", "aiSeverityConfidence", "aiSeverityFactors",
   "aiAnalysisError", "aiAnalysisTimestamp"]

/-- The initial `result` dict of `analyze_vulnerability` (ai_service.py
lines 132-147): `vulnerability_data.get(..., 'Unknown')` defaults apply
only when the key is missing. -/
def aiResultInit (vd : List (String × JValue)) : List (String × JValue) :=
  [("success", .bool false),
   ("vulnerabilityId", (dictGet vd "vulnerabilityId").getD (.str "Unknown")),
   ("packageName", (dictGet vd "packageName").getD (.str "Unknown")),
   ("aiGeneratedDescription", .null),
   ("aiDeterminedSeverity", .null),
   ("aiSeverityConfidence", .null),
   ("aiSeverityFactors", .null),
   ("aiAnalysisError", .null),
   ("aiAnalysisTimestamp", .null)]

/-- The `try` body and `except Exception` handler of
`AIVulnerabilityAnalyzer.analyze_vulnerability` (ai_service.py lines
149-175), parametrised by the outcomes of the two sub-calls: `.error e`
models the sub-call raising an exception with message `e` (caught by the
handler, which stamps `aiAnalysisError` and leaves `success` false).
Field extraction `severity_analysis.get('severity')` raises
`AttributeError` when the validated value is truthy but not a dict (a
JSON array can pass the membership validation), which the same handler
catches before any severity field is assigned. -/
def analyzeVulnerabilityAbs (vd : List (String × JValue))
    (descR : Except String (Option String))
    (sevR : Except String (Option JValue)) : List (String × JValue) :=
  let result := aiResultInit vd
  match descR with
  | .error e => dictSet result "aiAnalysisError" (.str ("AI analysis error: " ++ e))
  | .ok description =>
    let result :=
      match description with
      | some s => if s == "" then result else dictSet result "aiGeneratedDescription" (.str s)
      | none => result
    match sevR with
    | .error e => dictSet result "aiAnalysisError" (.str ("AI analysis error: " ++ e))
    | .ok severity_analysis =>
      let extracted : Except String (List (String × JValue)) :=
        match severity_analysis with
        | none => .ok result
        | some jv =>
          if pyTruthy jv then
            match jv with
            | .obj fs =>
              .ok (dictSet (dictSet (dictSet result
                "aiDeterminedSeverity" ((dictGet fs "severity").getD .null))
                "aiSeverityConfidence" ((dictGet fs "confidence").getD .null))
                "aiSeverityFactors" ((dictGet fs "factors").getD .null))
            | _ => .error "AttributeError"
          else .ok result
      match extracted with
      | .error e => dictSet result "aiAnalysisError" (.str ("AI analysis error: " ++ e))
      | .ok result2 =>
        if descTruthy description || pyTruthyOpt severity_analysis then
          dictSet result2 "success" (.bool true)
        else
          dictSet result2 "aiAnalysisError"
            (.str "Failed to generate both description and severity analysis")

/-- `AIVulnerabilityAnalyzer.analyze_vulnerability` (ai_service.py lines
122-175) composed with its two sub-operations, each driven by its own
remote-outcome oracle.  The sub-operations are total (they catch their own
exceptions), so both sub-calls always happen, in order. -/
def analyze_vulnerability (maxRetries retryDelay : Nat)
    (vd : List (String × JValue))
    (envDesc envSev : Nat → RemoteOutcome)
    (parse : String → Except Unit JValue) : List (String × JValue) :=
  analyzeVulnerabilityAbs vd
    (.ok (generate_description maxRetries retryDelay envDesc))
    (.ok (analyze_severity maxRetries retryDelay envSev parse))

/-! ## `queue_consumer.py` — `AIWorker._process_message`

The message body is raw bytes; `body.decode('utf-8')` and `json.loads` are
library calls, so their joint outcome is the input of the model:
`undecodableBytes` (a `UnicodeDecodeError`, which is **not** a
`json.JSONDecodeError` and therefore lands in the generic
`except Exception` handler), `invalidJson` (`json.JSONDecodeError`),
`nonObject` (valid JSON that is not an object, so
`message_data.get('scanId')` raises `AttributeError` into the generic
handler), or a decoded JSON object. -/

inductive DecodedBody where
  | undecodableBytes : DecodedBody
  | invalidJson : DecodedBody
  | nonObject : DecodedBody
  | objectBody : List (String × JValue) → DecodedBody

/-- The acknowledgment decision sent to the broker. -/
inductive AckAction where
  | ack : AckAction
  | nackRequeue : AckAction
  | nackNoRequeue : AckAction
deriving DecidableEq, Repr

/-- Observable outcome of one `_process_message` call. -/
structure ProcessOutcome where
  decision : AckAction
  analyzerCalled : Bool
  sinkCalled : Bool
deriving DecidableEq, Repr

/-- `AIWorker._process_message` (queue_consumer.py lines 139-216).  The
analyzer and the sink are parameters; per their own contracts
(`analyze_vulnerability` is total, `update_vulnerability_ai_analysis`
catches every storage exception) they are total functions. -/
def processMessage
    (analyze : List (String × JValue) → List (String × JValue))
    (sink : List (String × JValue) → List (String × JValue) → Bool)
    (body : DecodedBody) : ProcessOutcome :=
  match body with
  | .undecodableBytes => ⟨.nackRequeue, false, false⟩
  | .invalidJson => ⟨.nackNoRequeue, false, false⟩
  | .nonObject => ⟨.nackRequeue, false, false⟩
  | .objectBody message_data =>
    let ai_result := analyze message_data
    if pyTruthyOpt (dictGet ai_result "success") then
      if sink message_data ai_result then ⟨.ack, true, true⟩
      else ⟨.nackRequeue, true, true⟩
    else
      -- AI analysis failed: still save the error, ack regardless
      ⟨.ack, true, true⟩

/-! ## `database.py` — `MongoDBClient.update_vulnerability_ai_analysis` -/

/-- The array-filtered field path used by every `$set` key
(database.py lines 71-93). -/
def vulnFieldPath (f : String) : String :=
  "dependencies.$[dep].vulnerabilities.$[vuln]." ++ f

/-- The `update_fields` dict built in `update_vulnerability_ai_analysis`
(database.py lines 68-93): description, severity, factors and error are
written when truthy, confidence when `is not None`, and the timestamp
(`now`, standing for `datetime.utcnow()`) is always written. -/
def buildUpdateFields (ai_data : List (String × JValue)) (now : JValue) :
    List (String × JValue) :=
  let u : List (String × JValue) := []
  let u := if pyTruthyOpt (dictGet ai_data "aiGeneratedDescription") then
      u ++ [(vulnFieldPath "aiGeneratedDescription",
             (dictGet ai_data "aiGeneratedDescription").getD .null)]
    else u
  let u := if pyTruthyOpt (dictGet ai_data "aiDeterminedSeverity") then
      u ++ [(vulnFieldPath "aiDeterminedSeverity",
             (dictGet ai_data "aiDeterminedSeverity").getD .null)]
    else u
  let u := if pyIsNotNone (dictGet ai_data "aiSeverityConfidence") then
      u ++ [(vulnFieldPath "aiSeverityConfidence",
             (dictGet ai_data "aiSeverityConfidence").getD .null)]
    else u
  let u := if pyTruthyOpt (dictGet ai_data "aiSeverityFactors") then
      u ++ [(vulnFieldPath "aiSeverityFactors",
             (dictGet ai_data "aiSeverityFactors").getD .null)]
    else u
  let u := if pyTruthyOpt (dictGet ai_data "aiAnalysisError") then
      u ++ [(vulnFieldPath "aiAnalysisError",
             (dictGet ai_data "aiAnalysisError").getD .null)]
    else u
  u ++ [(vulnFieldPath "aiAnalysisTimestamp", now)]

/-- Outcome of the `scans_collection.update_one` call: an
`UpdateResult` with `matched_count`/`modified_count`, or an exception. -/
inductive UpdateOutcome where
  | ok : Nat → Nat → UpdateOutcome
  | pyMongoError : UpdateOutcome
  | otherError : UpdateOutcome

/-- `MongoDBClient.update_vulnerability_ai_analysis` (database.py lines
43-138): builds `update_fields`, issues the update (`store` stands for
the collection's `update_one`), and converts the outcome to a boolean;
`PyMongoError` and any other exception are caught and reported as
`False`. -/
def update_vulnerability_ai_analysis
    (ai_data : List (String × JValue)) (now : JValue)
    (store : List (String × JValue) → UpdateOutcome) : Bool :=
  match store (buildUpdateFields ai_data now) with
  | .ok matched modified =>
    if matched == 0 then false
    else if modified == 0 then true  -- document exists; data may already be applied
    else true
  | .pyMongoError => false
  | .otherError => false

/-- Effect of a MongoDB `$set` with the given field paths on a document
viewed as a map from (flattened) field paths to values. -/
def applySet (doc : String → Option JValue)
    (fields : List (String × JValue)) : String → Option JValue :=
  fun k =>
    match dictGet fields k with
    | some v => some v
    | none => doc k

/-! ## `queue_consumer.py` — the `AIWorker.start` consume loop

One iteration of the `while self.is_running:` body (queue_consumer.py
lines 60-110) is modelled as a step function.  Inputs: the state at the
while-condition check, whether an external `stop()` call (lines 112-123,
which clears `is_running`, stops consuming and closes the handles) lands
during the iteration, and how the blocking body terminates — normally
(`start_consuming` returned after `stop_consuming`), with an
`AMQPConnectionError`/`AMQPChannelError`, with `KeyboardInterrupt`, or
with any other exception. -/

structure WorkerState where
  is_running : Bool
  connectionOpen : Bool
  channelOpen : Bool
  reconnect_delay : Nat
deriving DecidableEq, Repr

/-- `AIWorker._close_connection` (queue_consumer.py lines 125-137):
best-effort close of both handles. -/
def closeConnection (s : WorkerState) : WorkerState :=
  { s with connectionOpen := false, channelOpen := false }

/-- `AIWorker.stop` (queue_consumer.py lines 112-123). -/
def stopWorker (s : WorkerState) : WorkerState :=
  closeConnection { s with is_running := false }

/-- How one iteration of the loop body terminates. -/
inductive ExcKind where
  | noExc : ExcKind
  | amqpError : ExcKind
  | keyboardInterrupt : ExcKind
  | otherError : ExcKind
deriving DecidableEq, Repr

/-- Observable outcome of one loop iteration: the state afterwards,
whether the iteration's exception handling invoked `_close_connection`
before control returned to the loop, the `time.sleep` duration if any,
and whether the `while` loop exits (in which case the `finally` clause
closes the handles). -/
structure IterOutcome where
  state : WorkerState
  closedOnError : Bool
  sleptFor : Option Nat
  exited : Bool
deriving DecidableEq, Repr

/-- One iteration of the `while self.is_running:` body of `AIWorker.start`
(queue_consumer.py lines 65-110).  The AMQP handler closes the connection
then sleeps `reconnect_delay` if still running; the `KeyboardInterrupt`
handler calls `stop()` and breaks; the generic `except Exception` handler
sleeps if still running but does **not** close the handles; a `break` or
a false while-condition reaches the `finally`, which closes the handles. -/
def loopIter (s : WorkerState) (stopRequested : Bool) (exc : ExcKind) :
    IterOutcome :=
  let s1 := if stopRequested then stopWorker s else s
  let o : IterOutcome :=
    match exc with
    | .noExc =>
      { state := s1, closedOnError := false, sleptFor := none,
        exited := !s1.is_running }
    | .amqpError =>
      let s2 := closeConnection s1
      if s2.is_running then
        { state := s2, closedOnError := true,
          sleptFor := some s2.reconnect_delay, exited := false }
      else
        { state := s2, closedOnError := true, sleptFor := none, exited := true }
    | .keyboardInterrupt =>
      { state := stopWorker s1, closedOnError := true, sleptFor := none,
        exited := true }
    | .otherError =>
      if s1.is_running then
        { state := s1, closedOnError := false,
          sleptFor := some s1.reconnect_delay, exited := false }
      else
        { state := s1, closedOnError := false, sleptFor := none, exited := true }
  if o.exited then { o with state := closeConnection o.state } else o

/-! ## Helper lemmas about the dict model -/

theorem dictGet_eq_none_of_not_mem {d : List (String × JValue)} {k : String}
    (h : k ∉ dictKeys d) : dictGet d k = none := by
  induction d with
  | nil => rfl
  | cons kv rest ih =>
    simp only [dictKeys, List.map_cons, List.mem_cons, not_or] at h
    simp only [dictGet, List.find?]
    have hne : (kv.1 == k) = false := by
      simp only [beq_eq_false_iff_ne]
      exact fun he => h.1 (he ▸ rfl)
    rw [hne]
    simpa [dictGet, dictKeys] using ih h.2

theorem any_key_eq_iff_mem {d : List (String × JValue)} {k : String} :
    d.any (fun kv => kv.1 == k) = true ↔ k ∈ dictKeys d := by
  induction d with
  | nil => simp [dictKeys]
  | cons kv rest ih =>
    simp only [List.any_cons, Bool.or_eq_true, beq_iff_eq, dictKeys,
      List.map_cons, List.mem_cons]
    constructor
    · rintro (h | h)
      · exact Or.inl h.symm
      · exact Or.inr (ih.mp h)
    · rintro (h | h)
      · exact Or.inl h.symm
      · exact Or.inr (ih.mpr h)

theorem mapSet_find_self (d : List (String × JValue)) (k : String) (v : JValue)
    (h : k ∈ dictKeys d) :
    (d.map (fun kv => if kv.1 == k then (k, v) else kv)).find?
      (fun kv => kv.1 == k) = some (k, v) := by
  induction d with
  | nil => simp [dictKeys] at h
  | cons kv rest ih =>
    simp only [dictKeys, List.map_cons, List.mem_cons] at h
    by_cases hk : kv.1 = k
    · simp [List.find?, hk]
    · have hb : (kv.1 == k) = false := by simpa using hk
      have h' : k ∈ dictKeys rest := by
        rcases h with h | h
        · exact absurd h.symm hk
        · exact h
      simp only [List.map_cons, hb, Bool.false_eq_true, if_false, List.find?, hb]
      exact ih h'

theorem mapSet_find_ne (d : List (String × JValue)) (k : String) (v : JValue)
    {k' : String} (h : k' ≠ k) :
    (d.map (fun kv => if kv.1 == k then (k, v) else kv)).find?
      (fun kv => kv.1 == k') = d.find? (fun kv => kv.1 == k') := by
  induction d with
  | nil => rfl
  | cons kv rest ih =>
    by_cases hk : kv.1 = k
    · have hb : (kv.1 == k) = true := by simpa using hk
      have h1 : (k == k') = false := by simpa using (Ne.symm h)
      have h2 : (kv.1 == k') = false := by
        rw [hk]; exact h1
      simp only [List.map_cons, hb, if_true, List.find?, h1, h2]
      exact ih
    · have hb : (kv.1 == k) = false := by simpa using hk
      simp only [List.map_cons, hb, Bool.false_eq_true, if_false, List.find?]
      cases hkv : (kv.1 == k') with
      | true => rfl
      | false => exact ih

theorem find_eq_none_of_not_any {d : List (String × JValue)} {k : String}
    (h : ¬ d.any (fun kv => kv.1 == k) = true) :
    d.find? (fun kv => kv.1 == k) = none := by
  rw [List.find?_eq_none]
  intro x hx hpx
  exact h (List.any_eq_true.mpr ⟨x, hx, hpx⟩)

theorem dictGet_dictSet_self (d : List (String × JValue)) (k : String) (v : JValue) :
    dictGet (dictSet d k v) k = some v := by
  unfold dictSet
  by_cases hmem : d.any (fun kv => kv.1 == k) = true
  · rw [if_pos hmem]
    unfold dictGet
    rw [mapSet_find_self d k v (any_key_eq_iff_mem.mp hmem)]
    rfl
  · rw [if_neg hmem]
    unfold dictGet
    rw [List.find?_append, find_eq_none_of_not_any hmem]
    simp [List.find?]

theorem dictGet_dictSet_ne (d : List (String × JValue)) (k : String) (v : JValue)
    {k' : String} (h : k' ≠ k) : dictGet (dictSet d k v) k' = dictGet d k' := by
  unfold dictSet
  by_cases hmem : d.any (fun kv => kv.1 == k) = true
  · rw [if_pos hmem]
    unfold dictGet
    rw [mapSet_find_ne d k v h]
  · rw [if_neg hmem]
    unfold dictGet
    rw [List.find?_append]
    cases hfind : d.find? (fun kv => kv.1 == k') with
    | some x => simp
    | none =>
      have hne : (k == k') = false := by simpa using (Ne.symm h)
      simp [List.find?, hne]

theorem dictKeys_dictSet_of_mem {d : List (String × JValue)} {k : String}
    (v : JValue) (h : k ∈ dictKeys d) : dictKeys (dictSet d k v) = dictKeys d := by
  unfold dictSet
  rw [if_pos (any_key_eq_iff_mem.mpr h)]
  unfold dictKeys
  rw [List.map_map]
  apply List.map_congr_left
  intro kv _
  by_cases hk : kv.1 = k
  · simp [hk]
  · have hb : (kv.1 == k) = false := by simpa using hk
    simp [hb, hk]

/-! ## Helper lemmas about the retry loop -/

theorem retryLoop_attempts_le (env : Nat → RemoteOutcome) (M d : Nat) :
    ∀ l : List Nat, (retryLoop env M d l).attemptsMade ≤ l.length := by
  intro l
  induction l with
  | nil => simp [retryLoop]
  | cons a rest ih =>
    rw [retryLoop]
    cases henv : env a with
    | success choices =>
      cases choices with
      | nil => simpa using Nat.add_le_add_right ih 1
      | cons c cs => simp
    | openAIError =>
      by_cases hlast : a < M - 1
      · rw [if_pos hlast]
        simpa using Nat.add_le_add_right ih 1
      · rw [if_neg hlast]
        simp
    | otherError => simp

/-- Skipping over a block of `m` recoverable failures at attempts
`a, …, a + m - 1` (none of them the last attempt): the result is the
result of the remaining attempts, with `m` extra attempts counted and the
linear-backoff sleeps `d * (a+1), …, d * (a+m)` prepended. -/
theorem retryLoop_error_prefix (env : Nat → RemoteOutcome) (M d : Nat) :
    ∀ m a rest, (∀ k, k < m → env (a + k) = .openAIError) →
    (∀ k, k < m → a + k < M - 1) →
    retryLoop env M d (List.range' a m ++ rest) =
      ⟨(retryLoop env M d rest).outcome,
       (retryLoop env M d rest).attemptsMade + m,
       ((List.range m).map (fun k => d * (a + k + 1))) ++
         (retryLoop env M d rest).sleeps⟩ := by
  intro m
  induction m with
  | zero => intro a rest _ _; simp
  | succ m ih =>
    intro a rest herr hlt
    have h0 : env a = .openAIError := by simpa using herr 0 (by omega)
    have hmid : a < M - 1 := by simpa using hlt 0 (by omega)
    rw [List.range'_succ, List.cons_append, retryLoop, h0, if_pos hmid]
    have herr' : ∀ k, k < m → env (a + 1 + k) = .openAIError := by
      intro k hk
      have := herr (k + 1) (by omega)
      have e : a + (k + 1) = a + 1 + k := by omega
      rwa [e] at this
    have hlt' : ∀ k, k < m → a + 1 + k < M - 1 := by
      intro k hk
      have := hlt (k + 1) (by omega)
      omega
    rw [ih (a + 1) rest herr' hlt']
    dsimp only
    have e2 : List.map (fun k => d * (a + k + 1)) (List.range (m + 1)) =
        d * (a + 1) :: List.map (fun k => d * (a + 1 + k + 1)) (List.range m) := by
      rw [List.range_succ_eq_map, List.map_cons, List.map_map]
      refine congrArg₂ List.cons (by norm_num) ?_
      apply List.map_congr_left
      intro k _
      simp only [Function.comp_apply]
      congr 1
      omega
    rw [e2, List.cons_append]
    have e1 : (retryLoop env M d rest).attemptsMade + m + 1 =
        (retryLoop env M d rest).attemptsMade + (m + 1) := by omega
    rw [e1]

/-! ## Concrete oracles used to instantiate hypotheses on concrete inputs -/

/-- An analyzer result with `success=True`. -/
def analyzeOk : List (String × JValue) → List (String × JValue) :=
  fun _ => [("success", JValue.bool true)]

/-- An analyzer result with `success=False`. -/
def analyzeFail : List (String × JValue) → List (String × JValue) :=
  fun _ => [("success", JValue.bool false)]

/-- A sink whose durable write lands. -/
def sinkTrue : List (String × JValue) → List (String × JValue) → Bool :=
  fun _ _ => true

/-- A sink whose durable write fails. -/
def sinkFalse : List (String × JValue) → List (String × JValue) → Bool :=
  fun _ _ => false

/-- A remote service failing recoverably on attempts 0 and 1 and
succeeding on attempt 2. -/
def envTwoFailThenOk : Nat → RemoteOutcome :=
  fun n => if n < 2 then .openAIError else .success [some "ok"]

/-- A remote service raising a non-recoverable error on every attempt. -/
def envAlwaysOther : Nat → RemoteOutcome := fun _ => .otherError

/-- A remote service answering immediately with `" padded "`. -/
def envPadded : Nat → RemoteOutcome := fun _ => .success [some " padded "]

/-- A remote service answering immediately with `"resp"`. -/
def envResp : Nat → RemoteOutcome := fun _ => .success [some "resp"]

/-- A JSON parse producing an object with the three required severity
fields plus one extra field. -/
def parseExtraField : String → Except Unit JValue :=
  fun _ => .ok (.obj [("severity", .str "high"), ("confidence", .num 90),
    ("factors", .arr [.str "x"]), ("extra", .num 1)])

/-- A JSON parse producing an array holding exactly the three required
field names (Python `in` on a list is membership, so validation passes). -/
def parseArrThree : String → Except Unit JValue :=
  fun _ => .ok (.arr [.str "severity", .str "confidence", .str "factors"])

/-! ## Claims -/

/-- C1: for every successfully decoded message, `_process_message` makes
exactly one ternary acknowledgment decision: Analyzer `success=True` and
sink `True` gives `basic_ack`; `success=True` and sink `False` gives
`basic_nack(requeue=True)`; `success=False` still invokes the sink
(return value unchecked) and gives `basic_ack` regardless. -/
theorem c1_process_message_ternary_ack
    (analyze : List (String × JValue) → List (String × JValue))
    (sink : List (String × JValue) → List (String × JValue) → Bool)
    (msg : List (String × JValue)) :
    (pyTruthyOpt (dictGet (analyze msg) "success") = true →
      sink msg (analyze msg) = true →
      processMessage analyze sink (.objectBody msg) = ⟨.ack, true, true⟩)
    ∧ (pyTruthyOpt (dictGet (analyze msg) "success") = true →
      sink msg (analyze msg) = false →
      processMessage analyze sink (.objectBody msg) = ⟨.nackRequeue, true, true⟩)
    ∧ (pyTruthyOpt (dictGet (analyze msg) "success") = false →
      processMessage analyze sink (.objectBody msg) = ⟨.ack, true, true⟩) := by
  refine ⟨fun h1 h2 => ?_, fun h1 h2 => ?_, fun h1 => ?_⟩
  · simp [processMessage, h1, h2]
  · simp [processMessage, h1, h2]
  · simp [processMessage, h1]

/-- Witness for C1 at concrete analyzer/sink outcomes. -/
theorem c1_process_message_ternary_ack_witness :
    (pyTruthyOpt (dictGet (analyzeOk []) "success") = true
      ∧ sinkTrue [] (analyzeOk []) = true
      ∧ processMessage analyzeOk sinkTrue (.objectBody []) = ⟨.ack, true, true⟩)
    ∧ processMessage analyzeOk sinkFalse (.objectBody []) = ⟨.nackRequeue, true, true⟩
    ∧ processMessage analyzeFail sinkTrue (.objectBody []) = ⟨.ack, true, true⟩ :=
  ⟨⟨rfl, rfl, (c1_process_message_ternary_ack analyzeOk sinkTrue []).1 rfl rfl⟩,
   (c1_process_message_ternary_ack analyzeOk sinkFalse []).2.1 rfl rfl,
   (c1_process_message_ternary_ack analyzeFail sinkTrue []).2.2 rfl⟩

/-- C2 counterexample: a message body that is not UTF-8-decodable raises
`UnicodeDecodeError`, which is not a `json.JSONDecodeError`, so it falls
into the generic `except Exception` handler and is rejected **with**
requeue — not without requeue as the claim states.  (The Analyzer is
indeed never invoked.) -/
theorem c2_undecodable_bytes_counterexample :
    processMessage analyzeOk sinkTrue .undecodableBytes =
      ⟨.nackRequeue, false, false⟩
    ∧ AckAction.nackRequeue ≠ AckAction.nackNoRequeue := by
  exact ⟨rfl, by decide⟩

/-- C2 (amended): a body that decodes as UTF-8 but is invalid JSON is
rejected without requeue and the Analyzer is never invoked; a body that
is not UTF-8-decodable lands in the generic handler and is rejected with
requeue, the Analyzer likewise never invoked. -/
theorem c2_malformed_body_rejected
    (analyze : List (String × JValue) → List (String × JValue))
    (sink : List (String × JValue) → List (String × JValue) → Bool) :
    processMessage analyze sink .invalidJson = ⟨.nackNoRequeue, false, false⟩
    ∧ processMessage analyze sink .undecodableBytes = ⟨.nackRequeue, false, false⟩ :=
  ⟨rfl, rfl⟩

/-- C5: the sink returns `True` whenever a matching record existed
(`matched_count > 0`), regardless of `modified_count` (zero modifications
included); `False` when no record matched; and every storage-layer
exception (`PyMongoError` or any other) is caught and reported as
`False`, never propagated. -/
theorem c5_update_result_contract (ai_data : List (String × JValue))
    (now : JValue) (store : List (String × JValue) → UpdateOutcome) :
    (∀ matched modified,
      store (buildUpdateFields ai_data now) = .ok matched modified →
      0 < matched → update_vulnerability_ai_analysis ai_data now store = true)
    ∧ (∀ modified, store (buildUpdateFields ai_data now) = .ok 0 modified →
      update_vulnerability_ai_analysis ai_data now store = false)
    ∧ (store (buildUpdateFields ai_data now) = .pyMongoError →
      update_vulnerability_ai_analysis ai_data now store = false)
    ∧ (store (buildUpdateFields ai_data now) = .otherError →
      update_vulnerability_ai_analysis ai_data now store = false) := by
  refine ⟨fun matched modified h hpos => ?_, fun modified h => ?_,
    fun h => ?_, fun h => ?_⟩
  · unfold update_vulnerability_ai_analysis
    rw [h]
    dsimp only
    have hne : (matched == 0) = false := by
      simp only [beq_eq_false_iff_ne]
      omega
    rw [hne]
    cases hmod : modified == 0 <;> simp
  · unfold update_vulnerability_ai_analysis
    rw [h]
    rfl
  · unfold update_vulnerability_ai_analysis
    rw [h]
  · unfold update_vulnerability_ai_analysis
    rw [h]

/-- Witness for C5 at concrete store outcomes, including the
matched-but-zero-modifications case. -/
theorem c5_update_result_contract_witness :
    update_vulnerability_ai_analysis [] .null (fun _ => .ok 1 0) = true
    ∧ update_vulnerability_ai_analysis [] .null (fun _ => .ok 0 0) = false
    ∧ update_vulnerability_ai_analysis [] .null (fun _ => .pyMongoError) = false
    ∧ update_vulnerability_ai_analysis [] .null (fun _ => .otherError) = false :=
  ⟨(c5_update_result_contract [] .null (fun _ => .ok 1 0)).1 1 0 rfl (by decide),
   (c5_update_result_contract [] .null (fun _ => .ok 0 0)).2.1 0 rfl,
   (c5_update_result_contract [] .null (fun _ => .pyMongoError)).2.2.1 rfl,
   (c5_update_result_contract [] .null (fun _ => .otherError)).2.2.2 rfl⟩

/-- C9: `generate_description` never raises (every failing retry outcome
is converted to `None` by its `except Exception` handler), an empty or
missing response gives `None`, and a non-empty response is returned
stripped of surrounding whitespace. -/
theorem c9_generate_description_contract (M d : Nat)
    (env : Nat → RemoteOutcome) :
    ((callOpenAIWithRetry env M d).outcome = .raisesOpenAIError →
      generate_description M d env = none)
    ∧ ((callOpenAIWithRetry env M d).outcome = .raisesOther →
      generate_description M d env = none)
    ∧ ((callOpenAIWithRetry env M d).outcome = .returns none →
      generate_description M d env = none)
    ∧ ((callOpenAIWithRetry env M d).outcome = .returns (some "") →
      generate_description M d env = none)
    ∧ (∀ s, s ≠ "" → (callOpenAIWithRetry env M d).outcome = .returns (some s) →
      generate_description M d env = some s.trim) := by
  refine ⟨fun h => ?_, fun h => ?_, fun h => ?_, fun h => ?_, fun s hs h => ?_⟩
  · unfold generate_description; rw [h]
  · unfold generate_description; rw [h]
  · unfold generate_description; rw [h]
  · unfold generate_description; rw [h]; rfl
  · unfold generate_description
    rw [h]
    dsimp only
    have hb : (s == "") = false := by simpa using hs
    rw [hb]
    rfl

/-- Witness for C9: a whitespace-padded response is stripped. -/
theorem c9_generate_description_contract_witness :
    (" padded " ≠ "")
    ∧ (callOpenAIWithRetry envPadded 1 0).outcome = .returns (some " padded ")
    ∧ generate_description 1 0 envPadded = some " padded ".trim :=
  ⟨by decide, rfl,
   (c9_generate_description_contract 1 0 envPadded).2.2.2.2 " padded " (by decide) rfl⟩

/-- C3: `_call_openai_with_retry` makes at most `max_retries` attempts;
after a prefix of recoverable (`OpenAIError`) failures it sleeps
`retry_delay * attemptNumber` between consecutive attempts (linear
backoff, recorded in order in the trace); a success on any attempt
returns that attempt's response text; a non-recoverable error re-raises
immediately without consuming further retry budget; and a recoverable
failure on the final attempt re-raises to the caller. -/
theorem c3_retry_contract (env : Nat → RemoteOutcome) (M d : Nat) :
    ((callOpenAIWithRetry env M d).attemptsMade ≤ M)
    ∧ (∀ m, m < M → (∀ k, k < m → env k = .openAIError) →
        ((∀ c cs, env m = .success (c :: cs) →
          callOpenAIWithRetry env M d =
            ⟨.returns c, m + 1, (List.range m).map (fun k => d * (k + 1))⟩)
        ∧ (env m = .otherError →
          callOpenAIWithRetry env M d =
            ⟨.raisesOther, m + 1, (List.range m).map (fun k => d * (k + 1))⟩)))
    ∧ (0 < M → (∀ k, k < M → env k = .openAIError) →
        callOpenAIWithRetry env M d =
          ⟨.raisesOpenAIError, M, (List.range (M - 1)).map (fun k => d * (k + 1))⟩) := by
  refine ⟨?_, ?_, ?_⟩
  · have h := retryLoop_attempts_le env M d (List.range M)
    simpa [callOpenAIWithRetry] using h
  · intro m hm herr
    have hsplit : List.range M = List.range' 0 m ++ List.range' m (M - m) := by
      rw [List.range_eq_range']
      have e : (M - m) + m = M := by omega
      calc List.range' 0 M = List.range' 0 ((M - m) + m) := by rw [e]
        _ = List.range' 0 m ++ List.range' (0 + m) (M - m) :=
            (List.range'_append_1 0 m (M - m)).symm
        _ = List.range' 0 m ++ List.range' m (M - m) := by norm_num
    have hrest : List.range' m (M - m) = m :: List.range' (m + 1) (M - m - 1) := by
      have e : M - m = (M - m - 1) + 1 := by omega
      rw [e, List.range'_succ]
      have e2 : M - m - 1 + 1 - 1 = M - m - 1 := by omega
      rw [e2]
    have hpre := retryLoop_error_prefix env M d m 0 (List.range' m (M - m))
      (by intro k hk; simpa using herr k (by omega))
      (by intro k hk; omega)
    simp only [Nat.zero_add] at hpre
    constructor
    · intro c cs hsucc
      have hterm : retryLoop env M d (List.range' m (M - m)) = ⟨.returns c, 1, []⟩ := by
        rw [hrest, retryLoop, hsucc]
      unfold callOpenAIWithRetry
      rw [hsplit, hpre, hterm]
      simp [Nat.add_comm]
    · intro hother
      have hterm : retryLoop env M d (List.range' m (M - m)) = ⟨.raisesOther, 1, []⟩ := by
        rw [hrest, retryLoop, hother]
      unfold callOpenAIWithRetry
      rw [hsplit, hpre, hterm]
      simp [Nat.add_comm]
  · intro hM herr
    have hsplit : List.range M = List.range' 0 (M - 1) ++ [M - 1] := by
      rw [List.range_eq_range']
      have e : M = (M - 1) + 1 := by omega
      calc List.range' 0 M = List.range' 0 ((M - 1) + 1) := by rw [← e]
        _ = List.range' 0 (M - 1) ++ [0 + (M - 1)] := List.range'_1_concat 0 (M - 1)
        _ = List.range' 0 (M - 1) ++ [M - 1] := by norm_num
    have hterm : retryLoop env M d [M - 1] = ⟨.raisesOpenAIError, 1, []⟩ := by
      rw [retryLoop, herr (M - 1) (by omega), if_neg (by omega)]
    have hpre := retryLoop_error_prefix env M d (M - 1) 0 [M - 1]
      (by intro k hk; simpa using herr k (by omega))
      (by intro k hk; omega)
    simp only [Nat.zero_add] at hpre
    unfold callOpenAIWithRetry
    rw [hsplit, hpre, hterm]
    simp only [List.append_nil]
    congr 1
    omega

/-- Witness for C3: two recoverable failures then a success on attempt 3
of 3, with the backoff sleeps `2 * 1` and `2 * 2`. -/
theorem c3_retry_contract_witness :
    (2 < 3 ∧ (∀ k, k < 2 → envTwoFailThenOk k = RemoteOutcome.openAIError))
    ∧ callOpenAIWithRetry envTwoFailThenOk 3 2 =
        ⟨.returns (some "ok"), 2 + 1, (List.range 2).map (fun k => 2 * (k + 1))⟩ :=
  ⟨⟨by norm_num, by decide⟩,
   ((c3_retry_contract envTwoFailThenOk 3 2).2.1 2 (by norm_num) (by decide)).1
     (some "ok") [] (by decide)⟩

/-- C6 counterexample: an unhandled non-AMQP exception in the loop body
(the generic `except Exception` handler, queue_consumer.py lines 100-107)
does **not** close the channel/connection handles: the handler only
sleeps and re-enters the loop, so the claim that every ERROR transition
closes the handles is false. -/
theorem c6_generic_error_no_close_counterexample :
    (loopIter ⟨true, true, true, 5⟩ false .otherError).closedOnError = false
    ∧ (loopIter ⟨true, true, true, 5⟩ false .otherError).state.connectionOpen = true
    ∧ (loopIter ⟨true, true, true, 5⟩ false .otherError).state.channelOpen = true
    ∧ (loopIter ⟨true, true, true, 5⟩ false .otherError).exited = false
    ∧ (loopIter ⟨true, true, true, 5⟩ false .otherError).sleptFor = some 5 := by
  decide

/-- C6 (amended): connection/channel-level (AMQP) errors close both
handles before re-entering the disconnected state; a generic unhandled
exception sleeps and re-enters the loop **without** closing the handles;
while `is_running` is true and no stop lands, the loop never exits except
through the stop transition (`stop()` or `KeyboardInterrupt`); every
error transition that stays in the loop sleeps the fixed
`reconnect_delay`; and every loop exit closes the handles via `finally`. -/
theorem c6_start_loop_contract (s : WorkerState) (stopRequested : Bool)
    (exc : ExcKind) :
    (s.is_running = true → stopRequested = false → exc ≠ .keyboardInterrupt →
      (loopIter s stopRequested exc).exited = false)
    ∧ (exc = .amqpError →
      (loopIter s stopRequested exc).closedOnError = true
      ∧ (loopIter s stopRequested exc).state.connectionOpen = false
      ∧ (loopIter s stopRequested exc).state.channelOpen = false)
    ∧ (s.is_running = true → stopRequested = false →
      (exc = .amqpError ∨ exc = .otherError) →
      (loopIter s stopRequested exc).sleptFor = some s.reconnect_delay)
    ∧ ((loopIter s stopRequested exc).exited = true →
      (loopIter s stopRequested exc).state.connectionOpen = false
      ∧ (loopIter s stopRequested exc).state.channelOpen = false) := by
  obtain ⟨r, co, ch, rd⟩ := s
  cases r <;> cases exc <;> cases stopRequested <;>
    simp [loopIter, stopWorker, closeConnection]

/-- Witness for C6 at a running worker hit by an AMQP error. -/
theorem c6_start_loop_contract_witness :
    (loopIter ⟨true, true, true, 5⟩ false .amqpError).exited = false
    ∧ (loopIter ⟨true, true, true, 5⟩ false .amqpError).closedOnError = true
    ∧ (loopIter ⟨true, true, true, 5⟩ false .amqpError).state.connectionOpen = false
    ∧ (loopIter ⟨true, true, true, 5⟩ false .amqpError).state.channelOpen = false
    ∧ (loopIter ⟨true, true, true, 5⟩ false .amqpError).sleptFor = some 5 :=
  ⟨(c6_start_loop_contract ⟨true, true, true, 5⟩ false .amqpError).1 rfl rfl
      (by decide),
   ((c6_start_loop_contract ⟨true, true, true, 5⟩ false .amqpError).2.1 rfl).1,
   ((c6_start_loop_contract ⟨true, true, true, 5⟩ false .amqpError).2.1 rfl).2.1,
   ((c6_start_loop_contract ⟨true, true, true, 5⟩ false .amqpError).2.1 rfl).2.2,
   (c6_start_loop_contract ⟨true, true, true, 5⟩ false .amqpError).2.2.1 rfl rfl
      (Or.inl rfl)⟩

/-! ## Characterization of `analyze_vulnerability`'s result dict -/

/-- Straight-line normal form of the dict produced by
`analyzeVulnerabilityAbs vd (.ok desc) (.ok sev)` (proved equal below):
the description field holds the truthy description; severity fields are
extracted only from a truthy (non-empty) object; a truthy non-object
severity value raises `AttributeError` into the handler; success is set
iff no extraction error occurred and at least one sub-result is truthy. -/
def absOutcome (vd : List (String × JValue)) (desc : Option String)
    (sev : Option JValue) : List (String × JValue) :=
  let descVal : JValue := if descTruthy desc then .str (desc.getD "") else .null
  let attrErr : Bool :=
    match sev with
    | some (.obj _) => false
    | some jv => pyTruthy jv
    | none => false
  let sevOk : Bool :=
    match sev with
    | some (.obj fs) => !fs.isEmpty
    | _ => false
  let sevGet : String → JValue := fun f =>
    match sev with
    | some (.obj fs) => (dictGet fs f).getD .null
    | _ => .null
  let succ : Bool := !attrErr && (descTruthy desc || pyTruthyOpt sev)
  let err : JValue :=
    if attrErr then .str "AI analysis error: AttributeError"
    else if descTruthy desc || pyTruthyOpt sev then .null
    else .str "Failed to generate both description and severity analysis"
  [("success", .bool succ),
   ("vulnerabilityId", (dictGet vd "vulnerabilityId").getD (.str "Unknown")),
   ("packageName", (dictGet vd "packageName").getD (.str "Unknown")),
   ("aiGeneratedDescription", descVal),
   ("aiDeterminedSeverity", if sevOk then sevGet "severity" else .null),
   ("aiSeverityConfidence", if sevOk then sevGet "confidence" else .null),
   ("aiSeverityFactors", if sevOk then sevGet "factors" else .null),
   ("aiAnalysisError", err),
   ("aiAnalysisTimestamp", .null)]

theorem abs_eq_absOutcome (vd : List (String × JValue)) (desc : Option String)
    (sev : Option JValue) :
    analyzeVulnerabilityAbs vd (.ok desc) (.ok sev) = absOutcome vd desc sev := by
  cases desc with
  | none =>
    cases sev with
    | none => rfl
    | some jv =>
      cases jv with
      | null => rfl
      | bool b => cases b <;> rfl
      | num n =>
        by_cases hn : n = 0 <;>
          simp [analyzeVulnerabilityAbs, absOutcome, pyTruthy, pyTruthyOpt,
            descTruthy, hn, dictSet, dictGet, aiResultInit]
      | str t =>
        by_cases ht : t = "" <;>
          simp [analyzeVulnerabilityAbs, absOutcome, pyTruthy, pyTruthyOpt,
            descTruthy, ht, dictSet, dictGet, aiResultInit]
      | arr xs => cases xs <;> rfl
      | obj fs => cases fs <;> rfl
  | some t =>
    by_cases ht : t = ""
    · subst ht
      cases sev with
      | none => rfl
      | some jv =>
        cases jv with
        | null => rfl
        | bool b => cases b <;> rfl
        | num n =>
          by_cases hn : n = 0 <;>
            simp [analyzeVulnerabilityAbs, absOutcome, pyTruthy, pyTruthyOpt,
              descTruthy, hn, dictSet, dictGet, aiResultInit]
        | str u =>
          by_cases hu : u = "" <;>
            simp [analyzeVulnerabilityAbs, absOutcome, pyTruthy, pyTruthyOpt,
              descTruthy, hu, dictSet, dictGet, aiResultInit]
        | arr xs => cases xs <;> rfl
        | obj fs => cases fs <;> rfl
    · cases sev with
      | none =>
        simp [analyzeVulnerabilityAbs, absOutcome, pyTruthy, pyTruthyOpt,
          descTruthy, ht, dictSet, dictGet, aiResultInit]
      | some jv =>
        cases jv with
        | null =>
          simp [analyzeVulnerabilityAbs, absOutcome, pyTruthy, pyTruthyOpt,
            descTruthy, ht, dictSet, dictGet, aiResultInit]
        | bool b =>
          cases b <;>
            simp [analyzeVulnerabilityAbs, absOutcome, pyTruthy, pyTruthyOpt,
              descTruthy, ht, dictSet, dictGet, aiResultInit]
        | num n =>
          by_cases hn : n = 0 <;>
            simp [analyzeVulnerabilityAbs, absOutcome, pyTruthy, pyTruthyOpt,
              descTruthy, ht, hn, dictSet, dictGet, aiResultInit]
        | str u =>
          by_cases hu : u = "" <;>
            simp [analyzeVulnerabilityAbs, absOutcome, pyTruthy, pyTruthyOpt,
              descTruthy, ht, hu, dictSet, dictGet, aiResultInit]
        | arr xs =>
          cases xs <;>
            simp [analyzeVulnerabilityAbs, absOutcome, pyTruthy, pyTruthyOpt,
              descTruthy, ht, dictSet, dictGet, aiResultInit]
        | obj fs =>
          cases fs <;>
            simp [analyzeVulnerabilityAbs, absOutcome, pyTruthy, pyTruthyOpt,
              descTruthy, ht, dictSet, dictGet, aiResultInit]

/-- A JSON parse producing an object with exactly the three required
severity fields. -/
def parseThreeField : String → Except Unit JValue :=
  fun _ => .ok (.obj [("severity", .str "low"), ("confidence", .num 50),
    ("factors", .arr [])])

/-- A value passing the three-field membership validation is truthy
(Python containers admitting `in` without `TypeError` and containing
`"severity"` are non-empty). -/
theorem pyInAll_sev_true_truthy (v : JValue)
    (h : pyInAll v ["severity", "confidence", "factors"] = .ok true) :
    pyTruthy v = true := by
  cases v with
  | obj fs =>
    cases fs with
    | nil => rw [pyInAll, pyIn] at h; simp at h
    | cons a as => rfl
  | arr xs =>
    cases xs with
    | nil => rw [pyInAll, pyIn] at h; simp at h
    | cons a as => rfl
  | str t =>
    by_cases ht : t = ""
    · subst ht
      rw [pyInAll, pyIn] at h
      rw [(by decide : strContainsSub "" "severity" = false)] at h
      simp at h
    · simp [pyTruthy, ht]
  | num n => rw [pyInAll, pyIn] at h; simp at h
  | bool b => rw [pyInAll, pyIn] at h; simp at h
  | null => rw [pyInAll, pyIn] at h; simp at h

/-- Whatever `analyze_severity` returns (when it returns something) passed
the membership validation and is therefore truthy. -/
theorem analyze_severity_truthy (M d : Nat) (env : Nat → RemoteOutcome)
    (parse : String → Except Unit JValue) (j : JValue)
    (h : analyze_severity M d env parse = some j) : pyTruthy j = true := by
  unfold analyze_severity at h
  split at h
  · exact absurd h (by simp)
  · exact absurd h (by simp)
  · exact absurd h (by simp)
  · rename_i s
    split at h
    · exact absurd h (by simp)
    · split at h
      · exact absurd h (by simp)
      · rename_i severity_data
        split at h
        · exact absurd h (by simp)
        · exact absurd h (by simp)
        · rename_i hval
          cases h
          exact pyInAll_sev_true_truthy _ hval

/-- C4 counterexample: a severity response parsing to the JSON array
`["severity", "confidence", "factors"]` passes the membership validation
(Python `in` on a list is element membership), so the severity
sub-operation returns data; but `severity_analysis.get('severity')` then
raises `AttributeError`, so `analyze_vulnerability` ends with
`success=False` — refuting `success == true` iff at least one
sub-operation returned data. -/
theorem c4_array_severity_counterexample :
    analyze_severity 3 2 envResp parseArrThree =
      some (.arr [.str "severity", .str "confidence", .str "factors"])
    ∧ dictGet (analyze_vulnerability 3 2 [] envAlwaysOther envResp parseArrThree)
        "success" = some (.bool false)
    ∧ dictGet (analyze_vulnerability 3 2 [] envAlwaysOther envResp parseArrThree)
        "aiAnalysisError" = some (.str "AI analysis error: AttributeError") :=
  ⟨rfl, rfl, rfl⟩

/-- C4 (amended): the two sub-operations are invoked independently (the
description field does not depend on the severity oracle and vice versa);
and provided the severity sub-result, when present, is a JSON object (the
intended structured-output shape), `success` is true iff at least one
sub-operation produced a truthy result, both sub-results empty yields the
explicit both-failed error, and `aiAnalysisError` stays `None` when any
data was produced.  (A non-object severity value that passes validation
instead trips `AttributeError`: success stays false with the error set,
as the counterexample shows.) -/
theorem c4_analyze_vulnerability_composition (M d : Nat)
    (vd : List (String × JValue)) (envD envD2 envS envS2 : Nat → RemoteOutcome)
    (parse parse2 : String → Except Unit JValue) :
    (dictGet (analyze_vulnerability M d vd envD envS parse) "aiDeterminedSeverity"
      = dictGet (analyze_vulnerability M d vd envD2 envS parse) "aiDeterminedSeverity")
    ∧ (dictGet (analyze_vulnerability M d vd envD envS parse) "aiGeneratedDescription"
      = dictGet (analyze_vulnerability M d vd envD envS2 parse2) "aiGeneratedDescription")
    ∧ ((analyze_severity M d envS parse = none
        ∨ (∃ fs, analyze_severity M d envS parse = some (.obj fs))) →
      dictGet (analyze_vulnerability M d vd envD envS parse) "success"
        = some (.bool (descTruthy (generate_description M d envD)
            || (analyze_severity M d envS parse).isSome)))
    ∧ (descTruthy (generate_description M d envD) = false →
      analyze_severity M d envS parse = none →
      dictGet (analyze_vulnerability M d vd envD envS parse) "aiAnalysisError"
        = some (.str "Failed to generate both description and severity analysis"))
    ∧ ((analyze_severity M d envS parse = none
        ∨ (∃ fs, analyze_severity M d envS parse = some (.obj fs))) →
      (descTruthy (generate_description M d envD)
        || (analyze_severity M d envS parse).isSome) = true →
      dictGet (analyze_vulnerability M d vd envD envS parse) "aiAnalysisError"
        = some JValue.null) := by
  refine ⟨?_, ?_, fun hsev => ?_, fun hdesc hsev => ?_, fun hsev hsucc => ?_⟩
  · unfold analyze_vulnerability
    rw [abs_eq_absOutcome, abs_eq_absOutcome]
    rfl
  · unfold analyze_vulnerability
    rw [abs_eq_absOutcome, abs_eq_absOutcome]
    rfl
  · unfold analyze_vulnerability
    rw [abs_eq_absOutcome]
    rcases hsev with hnone | ⟨fs, hobj⟩
    · rw [hnone]
      simp [absOutcome, dictGet, pyTruthyOpt]
    · have htr : pyTruthy (.obj fs) = true :=
        analyze_severity_truthy M d envS parse _ hobj
      rw [hobj]
      simp [absOutcome, dictGet, pyTruthyOpt, htr]
  · unfold analyze_vulnerability
    rw [abs_eq_absOutcome, hsev]
    simp [absOutcome, dictGet, pyTruthyOpt, hdesc]
  · unfold analyze_vulnerability
    rw [abs_eq_absOutcome]
    rcases hsev with hnone | ⟨fs, hobj⟩
    · rw [hnone] at hsucc ⊢
      simp only [Option.isSome_none, Bool.or_false] at hsucc
      simp [absOutcome, dictGet, pyTruthyOpt, hsucc]
    · have htr : pyTruthy (.obj fs) = true :=
        analyze_severity_truthy M d envS parse _ hobj
      rw [hobj] at hsucc ⊢
      simp [absOutcome, dictGet, pyTruthyOpt, htr]

/-- Witness for C4: a truthy description and an object-shaped severity
give success with no error; two empty sub-results give the explicit
both-failed error. -/
theorem c4_analyze_vulnerability_composition_witness :
    dictGet (analyze_vulnerability 3 2 [] envPadded envResp parseThreeField)
      "success" = some (.bool (descTruthy (generate_description 3 2 envPadded)
        || (analyze_severity 3 2 envResp parseThreeField).isSome))
    ∧ dictGet (analyze_vulnerability 3 2 [] envPadded envResp parseThreeField)
      "aiAnalysisError" = some JValue.null
    ∧ dictGet (analyze_vulnerability 3 2 [] envAlwaysOther envAlwaysOther parseThreeField)
      "aiAnalysisError" =
        some (.str "Failed to generate both description and severity analysis") :=
  ⟨(c4_analyze_vulnerability_composition 3 2 [] envPadded envPadded envResp envResp
      parseThreeField parseThreeField).2.2.1
      (Or.inr ⟨[("severity", .str "low"), ("confidence", .num 50),
        ("factors", .arr [])], rfl⟩),
   (c4_analyze_vulnerability_composition 3 2 [] envPadded envPadded envResp envResp
      parseThreeField parseThreeField).2.2.2.2
      (Or.inr ⟨[("severity", .str "low"), ("confidence", .num 50),
        ("factors", .arr [])], rfl⟩)
      (by
        have hs : (analyze_severity 3 2 envResp parseThreeField).isSome = true := rfl
        rw [hs, Bool.or_true]),
   (c4_analyze_vulnerability_composition 3 2 [] envAlwaysOther envAlwaysOther
      envAlwaysOther envAlwaysOther parseThreeField parseThreeField).2.2.2.1
      rfl rfl⟩

/-- On a JSON object, the three-field membership check is the conjunction
of per-key `any` checks (no `TypeError` possible). -/
theorem pyInAll_obj (fs : List (String × JValue)) (ks : List String) :
    pyInAll (.obj fs) ks = .ok (ks.all (fun k => fs.any (fun kv => kv.1 == k))) := by
  induction ks with
  | nil => rfl
  | cons k ks ih =>
    rw [pyInAll, pyIn]
    cases h : fs.any (fun kv => kv.1 == k) with
    | false => simp [h]
    | true => simp [h, ih]

/-- C7 counterexample: a parsed object carrying the three required fields
**plus an extra one** passes the `all(field in ...)` validation and is
returned, so the response is not validated to contain *exactly* the three
required fields. -/
theorem c7_extra_field_counterexample :
    analyze_severity 3 2 envResp parseExtraField =
      some (.obj [("severity", .str "high"), ("confidence", .num 90),
        ("factors", .arr [.str "x"]), ("extra", .num 1)])
    ∧ dictKeys [("severity", JValue.str "high"), ("confidence", JValue.num 90),
        ("factors", JValue.arr [JValue.str "x"]), ("extra", JValue.num 1)] ≠
        ["severity", "confidence", "factors"] := by
  exact ⟨rfl, by decide⟩

/-- C7 (amended): `analyze_severity` parses the response as JSON and
validates that the three required fields are all present (a superset of
fields is accepted); parse failure, validation failure, or an
empty/failed response returns `None`; validation success returns the
parsed structure unchanged. -/
theorem c7_analyze_severity_validation (M d : Nat) (env : Nat → RemoteOutcome)
    (parse : String → Except Unit JValue) (s : String) :
    ((callOpenAIWithRetry env M d).outcome = .returns (some s) → s ≠ "" →
      (∀ fs, parse s = .ok (.obj fs) →
        (("severity" ∈ dictKeys fs ∧ "confidence" ∈ dictKeys fs ∧
            "factors" ∈ dictKeys fs) →
          analyze_severity M d env parse = some (.obj fs))
        ∧ (("severity" ∉ dictKeys fs ∨ "confidence" ∉ dictKeys fs ∨
            "factors" ∉ dictKeys fs) →
          analyze_severity M d env parse = none))
      ∧ (∀ e, parse s = .error e → analyze_severity M d env parse = none))
    ∧ ((callOpenAIWithRetry env M d).outcome = .returns none →
      analyze_severity M d env parse = none)
    ∧ ((callOpenAIWithRetry env M d).outcome = .returns (some "") →
      analyze_severity M d env parse = none)
    ∧ ((callOpenAIWithRetry env M d).outcome = .raisesOpenAIError →
      analyze_severity M d env parse = none)
    ∧ ((callOpenAIWithRetry env M d).outcome = .raisesOther →
      analyze_severity M d env parse = none) := by
  refine ⟨fun hres hs => ?_, fun h => ?_, fun h => ?_, fun h => ?_, fun h => ?_⟩
  case refine_2 => unfold analyze_severity; rw [h]
  case refine_3 => unfold analyze_severity; rw [h]; rfl
  case refine_4 => unfold analyze_severity; rw [h]
  case refine_5 => unfold analyze_severity; rw [h]
  have hb : (s == "") = false := by simpa using hs
  refine ⟨fun fs hparse => ⟨fun hmem => ?_, fun hmiss => ?_⟩, fun e hparse => ?_⟩
  · simp only [analyze_severity, hres, hb, Bool.false_eq_true, if_false,
      hparse, pyInAll_obj]
    have hall : List.all ["severity", "confidence", "factors"]
        (fun k => fs.any (fun kv => kv.1 == k)) = true := by
      simp only [List.all_cons, List.all_nil, Bool.and_true, Bool.and_eq_true]
      exact ⟨any_key_eq_iff_mem.mpr hmem.1, any_key_eq_iff_mem.mpr hmem.2.1,
        any_key_eq_iff_mem.mpr hmem.2.2⟩
    rw [hall]
  · simp only [analyze_severity, hres, hb, Bool.false_eq_true, if_false,
      hparse, pyInAll_obj]
    have hall : List.all ["severity", "confidence", "factors"]
        (fun k => fs.any (fun kv => kv.1 == k)) = false := by
      rcases hmiss with hm | hm | hm
      · have hf : fs.any (fun kv => kv.1 == ("severity" : String)) = false := by
          cases hc : fs.any (fun kv => kv.1 == ("severity" : String)) with
          | true => exact absurd (any_key_eq_iff_mem.mp hc) hm
          | false => rfl
        simp [List.all_cons, hf]
      · have hf : fs.any (fun kv => kv.1 == ("confidence" : String)) = false := by
          cases hc : fs.any (fun kv => kv.1 == ("confidence" : String)) with
          | true => exact absurd (any_key_eq_iff_mem.mp hc) hm
          | false => rfl
        simp [List.all_cons, hf]
      · have hf : fs.any (fun kv => kv.1 == ("factors" : String)) = false := by
          cases hc : fs.any (fun kv => kv.1 == ("factors" : String)) with
          | true => exact absurd (any_key_eq_iff_mem.mp hc) hm
          | false => rfl
        simp [List.all_cons, hf]
    rw [hall]
  · simp only [analyze_severity, hres, hb, Bool.false_eq_true, if_false, hparse]

/-- Witness for C7: a well-shaped three-field object is accepted. -/
theorem c7_analyze_severity_validation_witness :
    (callOpenAIWithRetry envResp 3 2).outcome = .returns (some "resp")
    ∧ "resp" ≠ ""
    ∧ parseThreeField "resp" = .ok (.obj [("severity", .str "low"),
        ("confidence", .num 50), ("factors", .arr [])])
    ∧ analyze_severity 3 2 envResp parseThreeField =
        some (.obj [("severity", .str "low"), ("confidence", .num 50),
          ("factors", .arr [])]) :=
  ⟨rfl, by decide, rfl,
   (((c7_analyze_severity_validation 3 2 envResp parseThreeField "resp").1
      rfl (by decide)).1 [("severity", .str "low"), ("confidence", .num 50),
        ("factors", .arr [])] rfl).1 (by simp [dictKeys])⟩

/-- A truthy optional value is in particular not `None`. -/
theorem pyTruthyOpt_isNotNone (o : Option JValue) (h : pyTruthyOpt o = true) :
    pyIsNotNone o = true := by
  cases o with
  | none => simp [pyTruthyOpt] at h
  | some v =>
    cases v with
    | null => exact absurd h (by simp [pyTruthyOpt, pyTruthy])
    | bool b => rfl
    | num n => rfl
    | str t => rfl
    | arr xs => rfl
    | obj fs => rfl

/-- C8: the store update is a targeted partial `$set`: every written key
is one of the five AI fields or the timestamp; a field is written only if
it is present (non-`None`) in the analysis result; the timestamp is
always written; and `$set` leaves every other document field unchanged. -/
theorem c8_partial_update_frame (ai_data : List (String × JValue)) (now : JValue)
    (doc : String → Option JValue) (k : String) :
    (k ∈ dictKeys (buildUpdateFields ai_data now) →
      (k = vulnFieldPath "aiGeneratedDescription"
        ∨ k = vulnFieldPath "aiDeterminedSeverity"
        ∨ k = vulnFieldPath "aiSeverityConfidence"
        ∨ k = vulnFieldPath "aiSeverityFactors"
        ∨ k = vulnFieldPath "aiAnalysisError"
        ∨ k = vulnFieldPath "aiAnalysisTimestamp"))
    ∧ vulnFieldPath "aiAnalysisTimestamp" ∈ dictKeys (buildUpdateFields ai_data now)
    ∧ (k ∉ dictKeys (buildUpdateFields ai_data now) →
      applySet doc (buildUpdateFields ai_data now) k = doc k)
    ∧ (vulnFieldPath "aiGeneratedDescription" ∈ dictKeys (buildUpdateFields ai_data now) →
      pyIsNotNone (dictGet ai_data "aiGeneratedDescription") = true)
    ∧ (vulnFieldPath "aiDeterminedSeverity" ∈ dictKeys (buildUpdateFields ai_data now) →
      pyIsNotNone (dictGet ai_data "aiDeterminedSeverity") = true)
    ∧ (vulnFieldPath "aiSeverityConfidence" ∈ dictKeys (buildUpdateFields ai_data now) →
      pyIsNotNone (dictGet ai_data "aiSeverityConfidence") = true)
    ∧ (vulnFieldPath "aiSeverityFactors" ∈ dictKeys (buildUpdateFields ai_data now) →
      pyIsNotNone (dictGet ai_data "aiSeverityFactors") = true)
    ∧ (vulnFieldPath "aiAnalysisError" ∈ dictKeys (buildUpdateFields ai_data now) →
      pyIsNotNone (dictGet ai_data "aiAnalysisError") = true) := by
  refine ⟨?_, ?_, fun hk => ?_, ?_, ?_, ?_, ?_, ?_⟩
  case refine_3 =>
    unfold applySet
    rw [dictGet_eq_none_of_not_mem hk]
  all_goals {
    cases h1 : pyTruthyOpt (dictGet ai_data "aiGeneratedDescription") <;>
    cases h2 : pyTruthyOpt (dictGet ai_data "aiDeterminedSeverity") <;>
    cases h3 : pyIsNotNone (dictGet ai_data "aiSeverityConfidence") <;>
    cases h4 : pyTruthyOpt (dictGet ai_data "aiSeverityFactors") <;>
    cases h5 : pyTruthyOpt (dictGet ai_data "aiAnalysisError") <;>
      simp_all [buildUpdateFields, dictKeys, vulnFieldPath,
        pyTruthyOpt_isNotNone] <;>
      tauto
  }

/-- Witness for C8: an analysis result with only a description writes the
description path and the timestamp; other paths are untouched and an
unrelated document field is preserved by the `$set`. -/
theorem c8_partial_update_frame_witness :
    ("otherField" ∈ dictKeys (buildUpdateFields
        [("aiGeneratedDescription", .str "d")] .null) →
      ("otherField" = vulnFieldPath "aiGeneratedDescription"
        ∨ "otherField" = vulnFieldPath "aiDeterminedSeverity"
        ∨ "otherField" = vulnFieldPath "aiSeverityConfidence"
        ∨ "otherField" = vulnFieldPath "aiSeverityFactors"
        ∨ "otherField" = vulnFieldPath "aiAnalysisError"
        ∨ "otherField" = vulnFieldPath "aiAnalysisTimestamp"))
    ∧ vulnFieldPath "aiAnalysisTimestamp" ∈ dictKeys (buildUpdateFields
        [("aiGeneratedDescription", .str "d")] .null)
    ∧ applySet (fun _ => some (.str "keep")) (buildUpdateFields
        [("aiGeneratedDescription", .str "d")] .null) "otherField" =
        some (.str "keep")
    ∧ pyIsNotNone (dictGet [("aiGeneratedDescription", JValue.str "d")]
        "aiGeneratedDescription") = true :=
  ⟨(c8_partial_update_frame [("aiGeneratedDescription", .str "d")] .null
      (fun _ => some (.str "keep")) "otherField").1,
   (c8_partial_update_frame [("aiGeneratedDescription", .str "d")] .null
      (fun _ => some (.str "keep")) "otherField").2.1,
   (c8_partial_update_frame [("aiGeneratedDescription", .str "d")] .null
      (fun _ => some (.str "keep")) "otherField").2.2.1 (by decide),
   (c8_partial_update_frame [("aiGeneratedDescription", .str "d")] .null
      (fun _ => some (.str "keep")) "otherField").2.2.2.1 (by decide)⟩

/-- The `result` dict right after the description step of
`analyze_vulnerability` (description stamped only when truthy). -/
def descApplied (vd : List (String × JValue)) (desc : Option String) :
    List (String × JValue) :=
  match desc with
  | some s => if s == "" then aiResultInit vd
              else dictSet (aiResultInit vd) "aiGeneratedDescription" (.str s)
  | none => aiResultInit vd

theorem descApplied_keys (vd : List (String × JValue)) (desc : Option String) :
    dictKeys (descApplied vd desc) = aiResultKeys := by
  cases desc with
  | none => rfl
  | some s =>
    by_cases hs : s = ""
    · subst hs; rfl
    · simp [descApplied, hs, dictKeys, dictSet, aiResultInit, aiResultKeys]

theorem descApplied_success (vd : List (String × JValue)) (desc : Option String) :
    dictGet (descApplied vd desc) "success" = some (.bool false) := by
  cases desc with
  | none => rfl
  | some s =>
    by_cases hs : s = ""
    · subst hs; rfl
    · simp [descApplied, hs, dictGet, dictSet, aiResultInit]

theorem abs_err_desc (vd : List (String × JValue)) (e : String)
    (sevR : Except String (Option JValue)) :
    analyzeVulnerabilityAbs vd (.error e) sevR =
      dictSet (aiResultInit vd) "aiAnalysisError"
        (.str ("AI analysis error: " ++ e)) := rfl

theorem abs_ok_err (vd : List (String × JValue)) (desc : Option String)
    (e : String) :
    analyzeVulnerabilityAbs vd (.ok desc) (.error e) =
      dictSet (descApplied vd desc) "aiAnalysisError"
        (.str ("AI analysis error: " ++ e)) := rfl

/-- C10: `analyze_vulnerability` is total at the component boundary (the
embedding returns a result dict on every path, the `except Exception`
branches included): the result always carries the full fixed key set in
order, `success` is always a boolean, and an exception escaping either
sub-call is converted into a populated `aiAnalysisError` with `success`
remaining `False`. -/
theorem c10_analyze_vulnerability_total (vd : List (String × JValue))
    (descR : Except String (Option String))
    (sevR : Except String (Option JValue)) :
    dictKeys (analyzeVulnerabilityAbs vd descR sevR) = aiResultKeys
    ∧ (∃ b, dictGet (analyzeVulnerabilityAbs vd descR sevR) "success"
        = some (.bool b))
    ∧ (∀ e, descR = .error e →
      dictGet (analyzeVulnerabilityAbs vd descR sevR) "aiAnalysisError"
        = some (.str ("AI analysis error: " ++ e))
      ∧ dictGet (analyzeVulnerabilityAbs vd descR sevR) "success"
        = some (.bool false))
    ∧ (∀ desc e, descR = .ok desc → sevR = .error e →
      dictGet (analyzeVulnerabilityAbs vd descR sevR) "aiAnalysisError"
        = some (.str ("AI analysis error: " ++ e))
      ∧ dictGet (analyzeVulnerabilityAbs vd descR sevR) "success"
        = some (.bool false)) := by
  have hmemInit : "aiAnalysisError" ∈ dictKeys (aiResultInit vd) := by
    have h : dictKeys (aiResultInit vd) = aiResultKeys := rfl
    rw [h]; decide
  have hne : ("success" : String) ≠ "aiAnalysisError" := by decide
  refine ⟨?_, ?_, ?_, ?_⟩
  · rcases descR with e | desc
    · rw [abs_err_desc, dictKeys_dictSet_of_mem _ hmemInit]; rfl
    · rcases sevR with e | sev
      · rw [abs_ok_err, dictKeys_dictSet_of_mem]
        · exact descApplied_keys vd desc
        · rw [descApplied_keys]; decide
      · rw [abs_eq_absOutcome]; rfl
  · rcases descR with e | desc
    · exact ⟨false, by rw [abs_err_desc, dictGet_dictSet_ne _ _ _ hne]; rfl⟩
    · rcases sevR with e | sev
      · exact ⟨false, by
          rw [abs_ok_err, dictGet_dictSet_ne _ _ _ hne, descApplied_success]⟩
      · rw [abs_eq_absOutcome]
        exact ⟨_, rfl⟩
  · intro e he
    subst he
    constructor
    · rw [abs_err_desc, dictGet_dictSet_self]
    · rw [abs_err_desc, dictGet_dictSet_ne _ _ _ hne]; rfl
  · intro desc e hd hs
    subst hd; subst hs
    constructor
    · rw [abs_ok_err, dictGet_dictSet_self]
    · rw [abs_ok_err, dictGet_dictSet_ne _ _ _ hne, descApplied_success]

/-- Witness for C10 at a concrete failing severity sub-call. -/
theorem c10_analyze_vulnerability_total_witness :
    dictGet (analyzeVulnerabilityAbs [] (.ok (some "d")) (.error "boom"))
      "aiAnalysisError" = some (.str ("AI analysis error: " ++ "boom"))
    ∧ dictGet (analyzeVulnerabilityAbs [] (.ok (some "d")) (.error "boom"))
      "success" = some (.bool false)
    ∧ dictKeys (analyzeVulnerabilityAbs [] (.ok (some "d")) (.error "boom"))
      = aiResultKeys :=
  ⟨((c10_analyze_vulnerability_total [] (.ok (some "d")) (.error "boom")).2.2.2
      (some "d") "boom" rfl rfl).1,
   ((c10_analyze_vulnerability_total [] (.ok (some "d")) (.error "boom")).2.2.2
      (some "d") "boom" rfl rfl).2,
   (c10_analyze_vulnerability_total [] (.ok (some "d")) (.error "boom")).1⟩

end DepMgmt
